import Mathlib

/-!
Shallow embedding of the CookSmart Gateway request-execution core
(`backend/gateway.py`) and its embedding-service caller
(`backend/services/embedding_service.py`).

Modelling conventions:
* `time.monotonic()` instants and second durations are rationals (`ℚ`);
  the claims only use ordering and addition of times.
* JSON documents are the inductive `Json`; `resp.json()` is modelled as an
  `Option Json` carried on the response (`none` = the body is not valid
  JSON, i.e. `json.loads` raises).  For the streaming generate path the
  per-line parses are carried as `List (Option Json)`.
* Python string slicing `s[:n]` is `pyTake s n` (first `n` characters).
* Exceptions become the `GError` sum.  `GError.circuitOpen r` stands for
  the `UpstreamUnavailable` raised by `CircuitBreaker.allow` (whose
  message formats the remaining cooldown `r`); `GError.uncaught` stands
  for a non-Gateway exception escaping (KeyError, JSONDecodeError,
  pydantic ValidationError).
* Calls to `report_failure` / `report_success` made by the executor are
  recorded as counters on the returned trace.
-/

/-- JSON values; numbers are modelled as integers (no claim computes with
numeric payloads). -/
inductive Json where
  | null : Json
  | bool : Bool → Json
  | num : Int → Json
  | str : String → Json
  | arr : List Json → Json
  | obj : List (String × Json) → Json
deriving Repr

/-- Dictionary field access `d.get(k)` on a JSON object's field list. -/
def lookupField (k : String) : List (String × Json) → Option Json
  | [] => none
  | (k', v) :: rest => if k' = k then some v else lookupField k rest

/-- Python string slicing `s[:n]`: the first `n` characters of `s`. -/
def pyTake (s : String) (n : Nat) : String :=
  ⟨s.data.take n⟩

/-- The Gateway error taxonomy of `backend/gateway.py` (exceptions). -/
inductive GError where
  | upstreamTimeout : String → GError
  | upstreamUnavailable : String → GError
  | circuitOpen : ℚ → GError
  | badUpstreamResponse : String → GError
  | gatewayError : String → GError
  | uncaught : String → GError
deriving Repr, DecidableEq

/-- An HTTP response as the Gateway observes it: status code, body text,
the result of `resp.json()` (`none` if undecodable), and the result of
parsing each non-blank line of the body (used by streaming generate). -/
structure HttpResponse where
  status : Nat
  text : String
  json : Option Json
  jsonLines : List (Option Json)
deriving Repr

/-- Outcome of one HTTP attempt by the shared client: a response, a
`httpx.ReadTimeout`, or another `httpx.HTTPError` with message. -/
inductive AttemptOutcome where
  | resp : HttpResponse → AttemptOutcome
  | readTimeout : AttemptOutcome
  | httpError : String → AttemptOutcome
deriving Repr

/-- `GatewayConfig` (the fields the modelled claims use), with the
source's env-var defaults. -/
structure GatewayConfig where
  cloudinary_cloud_name : String := ""
  cloudinary_api_key : String := ""
  cloudinary_api_secret : String := ""
  retries : Nat := 2
  retry_backoff_seconds : ℚ := 3/5
  circuit_fail_threshold : Nat := 4
  circuit_cooldown_seconds : ℚ := 10
deriving Repr, DecidableEq

/-- `CircuitBreaker`: configuration plus mutable state
(`_fail_count`, `_open_until`; `open_until = 0` means closed). -/
structure CircuitBreaker where
  fail_threshold : Nat
  cooldown_seconds : ℚ
  fail_count : Nat := 0
  open_until : ℚ := 0
deriving Repr, DecidableEq

namespace CircuitBreaker

/-- A freshly constructed breaker (`__init__`). -/
def init (fail_threshold : Nat) (cooldown_seconds : ℚ) : CircuitBreaker :=
  { fail_threshold := fail_threshold, cooldown_seconds := cooldown_seconds }

/-- `CircuitBreaker.allow` at monotonic instant `now`.  Returns the raised
error (if any) together with the breaker state after the call; the
rejection branch raises before touching any field. -/
def allow (cb : CircuitBreaker) (now : ℚ) : Option GError × CircuitBreaker :=
  if now < cb.open_until then
    (some (.circuitOpen (cb.open_until - now)), cb)
  else if cb.open_until ≠ 0 ∧ cb.open_until ≤ now then
    (none, { cb with fail_count := 0, open_until := 0 })
  else
    (none, cb)

/-- `CircuitBreaker.report_success`. -/
def report_success (cb : CircuitBreaker) : CircuitBreaker :=
  { cb with fail_count := 0, open_until := 0 }

/-- `CircuitBreaker.report_failure` at monotonic instant `now`. -/
def report_failure (cb : CircuitBreaker) (now : ℚ) : CircuitBreaker :=
  let fc := cb.fail_count + 1
  if cb.fail_threshold ≤ fc then
    { cb with fail_count := fc, open_until := now + cb.cooldown_seconds }
  else
    { cb with fail_count := fc }

end CircuitBreaker

/-- A sequence of consecutive `report_failure` calls at the given instants. -/
def reportFailures (cb : CircuitBreaker) (ts : List ℚ) : CircuitBreaker :=
  ts.foldl CircuitBreaker.report_failure cb

/-- The transient HTTP status codes of `_request_with_retry`
(`(408, 429, 500, 502, 503, 504)`). -/
def transientStatuses : List Nat := [408, 429, 500, 502, 503, 504]

/-- Trace of one `_request_with_retry` run: the returned response or
raised error, how many HTTP attempts were issued, the backoff sleeps in
order, and how many times `report_failure` / `report_success` were called
on the breaker. -/
structure ExecTrace where
  result : Except GError HttpResponse
  attempts : Nat
  sleeps : List ℚ
  failureReports : Nat
  successReports : Nat
deriving Repr

/-- The attempt loop of `_request_with_retry`: `i` is the 0-based attempt
index, `rem` the remaining attempts out of `retries + 1`, `lastExc` the
`last_exc` variable.  When attempts run out it raises
`last_exc or UpstreamUnavailable(...)`. -/
def loopAttempts (expected : Nat) (backoff : ℚ) (url : String)
    (outcomes : Nat → AttemptOutcome) : Nat → Nat → Option GError → ExecTrace
  | _, 0, lastExc =>
    ⟨.error (lastExc.getD (.upstreamUnavailable ("Failed to call " ++ url))),
      0, [], 0, 0⟩
  | i, rem + 1, _ =>
    match outcomes i with
    | .resp r =>
      if r.status = expected then
        ⟨.ok r, 1, [], 0, 1⟩
      else if r.status ∈ transientStatuses then
        let exc : GError :=
          .upstreamUnavailable
            ("Upstream " ++ url ++ " returned " ++ toString r.status)
        let rest := loopAttempts expected backoff url outcomes (i + 1) rem (some exc)
        ⟨rest.result, rest.attempts + 1, backoff * (i + 1) :: rest.sleeps,
          rest.failureReports, rest.successReports⟩
      else
        ⟨.error (.badUpstreamResponse (pyTake r.text 512)), 1, [], 1, 0⟩
    | .readTimeout =>
      let exc : GError := .upstreamTimeout ("Timeout calling " ++ url)
      let rest := loopAttempts expected backoff url outcomes (i + 1) rem (some exc)
      ⟨rest.result, rest.attempts + 1, backoff * (i + 1) :: rest.sleeps,
        rest.failureReports + 1, rest.successReports⟩
    | .httpError m =>
      let exc : GError :=
        .upstreamUnavailable ("HTTP error calling " ++ url ++ ": " ++ m)
      let rest := loopAttempts expected backoff url outcomes (i + 1) rem (some exc)
      ⟨rest.result, rest.attempts + 1, backoff * (i + 1) :: rest.sleeps,
        rest.failureReports + 1, rest.successReports⟩

/-- `Gateway._request_with_retry`: consult the breaker's `allow` at `now`
(propagating its rejection with zero attempts), then run up to
`retries + 1` attempts. -/
def requestWithRetry (cfg : GatewayConfig) (cb : CircuitBreaker) (now : ℚ)
    (url : String) (expected : Nat) (outcomes : Nat → AttemptOutcome) :
    ExecTrace × CircuitBreaker :=
  match CircuitBreaker.allow cb now with
  | (some e, cb') => (⟨.error e, 0, [], 0, 0⟩, cb')
  | (none, cb') =>
    (loopAttempts expected cfg.retry_backoff_seconds url outcomes 0
      (cfg.retries + 1) none, cb')

/-! ## Response parsing of the upstream adapters -/

/-- `x.get("response", "")` followed by the string use of the value:
a missing field silently defaults to `""`; a present non-string value, or
a non-dict `x`, raises (pydantic ValidationError / AttributeError /
TypeError on join), which the adapter catches. -/
def responseTextField : Json → Option String
  | .obj fields =>
    match lookupField "response" fields with
    | none => some ""
    | some (.str s) => some s
    | some _ => none
  | _ => none

/-- The streaming path of `ollama_generate`: every non-blank line must
decode as JSON and yield its `response` chunk, which are concatenated. -/
def joinChunks : List (Option Json) → Option String
  | [] => some ""
  | none :: _ => none
  | some j :: rest =>
    match responseTextField j, joinChunks rest with
    | some s, some t => some (s ++ t)
    | _, _ => none

/-- The parse step of `ollama_generate` on an expected-status response.
All parse failures are caught by `except Exception` and re-raised as
`BadUpstreamResponse`. -/
def parseGenerateResponse (stream : Bool) (r : HttpResponse) :
    Except GError String :=
  if stream then
    match joinChunks r.jsonLines with
    | some full => .ok full
    | none => .error (.badUpstreamResponse "Failed parsing Ollama response")
  else
    match r.json with
    | none => .error (.badUpstreamResponse "Failed parsing Ollama response")
    | some d =>
      match responseTextField d with
      | some s => .ok s
      | none => .error (.badUpstreamResponse "Failed parsing Ollama response")

/-- Pydantic validation of a JSON value against `List[float]`. -/
def asNumList : List Json → Option (List Int)
  | [] => some []
  | .num n :: rest =>
    match asNumList rest with
    | some ns => some (n :: ns)
    | none => none
  | _ :: _ => none

/-- Pydantic validation of a JSON value against `List[List[float]]`. -/
def asVecList : List Json → Option (List (List Int))
  | [] => some []
  | .arr xs :: rest =>
    match asNumList xs, asVecList rest with
    | some v, some vs => some (v :: vs)
    | _, _ => none
  | _ :: _ => none

/-- The parse step of `ollama_embeddings` on an expected-status response:
prefer a non-empty `embeddings` list, fall back to a non-empty `embedding`
vector wrapped in a one-element list, otherwise (or on any parse or
validation failure) raise `BadUpstreamResponse`. -/
def parseEmbeddingsResponse (r : HttpResponse) :
    Except GError (List (List Int)) :=
  match r.json with
  | none => .error (.badUpstreamResponse "Failed parsing Ollama embeddings")
  | some (.obj fields) =>
    match lookupField "embeddings" fields with
    | some (.arr (x :: xs)) =>
      match asVecList (x :: xs) with
      | some v => .ok v
      | none => .error (.badUpstreamResponse "Failed parsing Ollama embeddings")
    | _ =>
      match lookupField "embedding" fields with
      | some (.arr (y :: ys)) =>
        match asNumList (y :: ys) with
        | some v => .ok [v]
        | none =>
          .error (.badUpstreamResponse "Failed parsing Ollama embeddings")
      | _ => .error (.badUpstreamResponse "Empty embeddings in response")
  | some _ => .error (.badUpstreamResponse "Failed parsing Ollama embeddings")

/-- The parse step of `cloudinary_upload_image` on a 200 response:
`body = resp.json(); body["public_id"]; body["secure_url"]` and pydantic
validation.  None of these failures is caught (`except` clauses only
match `httpx` exceptions), so they escape as raw exceptions. -/
def parseCloudinaryResponse (r : HttpResponse) :
    Except GError (String × String) :=
  match r.json with
  | none => .error (.uncaught "json.JSONDecodeError")
  | some (.obj fields) =>
    match lookupField "public_id" fields, lookupField "secure_url" fields with
    | some (.str pid), some (.str url) => .ok (pid, url)
    | none, _ => .error (.uncaught "KeyError")
    | _, none => .error (.uncaught "KeyError")
    | _, _ => .error (.uncaught "pydantic.ValidationError")
  | some _ => .error (.uncaught "TypeError")

/-! ## The Gateway operations -/

/-- `ollama_generate`: run the retrying executor against the shared
ollama breaker with expected status 200, then parse. -/
def ollama_generate (cfg : GatewayConfig) (cb : CircuitBreaker) (now : ℚ)
    (url : String) (stream : Bool) (outcomes : Nat → AttemptOutcome) :
    Except GError String × ExecTrace :=
  let (tr, _) := requestWithRetry cfg cb now url 200 outcomes
  match tr.result with
  | .error e => (.error e, tr)
  | .ok r => (parseGenerateResponse stream r, tr)

/-- The request payload built by `ollama_embeddings`: the `input` field
(JSON) and the `prompt` field, shaped for two historical API versions. -/
structure EmbPayload where
  model : String
  input : Json
  prompt : String
deriving Repr

/-- Payload shaping of `ollama_embeddings` for a list input: a singleton
list puts the one string in both fields; otherwise the list goes in
`input` and `" \n".join(req.input)` in `prompt`. -/
def buildEmbeddingsPayload (model : String) (input : List String) :
    EmbPayload :=
  match input with
  | [x] => ⟨model, .str x, x⟩
  | xs => ⟨model, .arr (xs.map .str), String.intercalate " \n" xs⟩

/-- `ollama_embeddings`: build the dual-field payload, run the executor
(expected status 200), then parse. -/
def ollama_embeddings (cfg : GatewayConfig) (cb : CircuitBreaker) (now : ℚ)
    (url : String) (input : List String) (outcomes : Nat → AttemptOutcome) :
    Except GError (List (List Int)) × ExecTrace :=
  let _payload := buildEmbeddingsPayload "model" input
  let (tr, _) := requestWithRetry cfg cb now url 200 outcomes
  match tr.result with
  | .error e => (.error e, tr)
  | .ok r => (parseEmbeddingsResponse r, tr)

/-- Trace of one `cloudinary_upload_image` call. -/
structure UploadTrace where
  result : Except GError (String × String)
  httpCalls : Nat
  allowConsulted : Bool
  failureReports : Nat
  successReports : Nat
deriving Repr

/-- `cloudinary_upload_image`: credential check first (`raise
GatewayError` before the breaker is consulted and before any HTTP call),
then `allow`, then exactly one HTTP attempt classified by status, with a
256-character body snippet on a bad status. -/
def cloudinary_upload_image (cfg : GatewayConfig) (cb : CircuitBreaker)
    (now : ℚ) (outcome : AttemptOutcome) : UploadTrace × CircuitBreaker :=
  if cfg.cloudinary_cloud_name = "" ∨ cfg.cloudinary_api_key = "" ∨
      cfg.cloudinary_api_secret = "" then
    (⟨.error (.gatewayError "Cloudinary credentials missing"), 0, false, 0, 0⟩,
      cb)
  else
    match CircuitBreaker.allow cb now with
    | (some e, cb') => (⟨.error e, 0, true, 0, 0⟩, cb')
    | (none, cb') =>
      match outcome with
      | .resp r =>
        if r.status = 200 then
          (⟨parseCloudinaryResponse r, 1, true, 0, 1⟩,
            cb'.report_success)
        else if r.status ∈ transientStatuses then
          (⟨.error (.upstreamUnavailable
              ("Cloudinary temp error " ++ toString r.status)), 1, true, 1, 0⟩,
            cb'.report_failure now)
        else
          (⟨.error (.badUpstreamResponse (pyTake r.text 256)), 1, true, 1, 0⟩,
            cb'.report_failure now)
      | .readTimeout =>
        (⟨.error (.upstreamTimeout "Cloudinary timeout"), 1, true, 1, 0⟩,
          cb'.report_failure now)
      | .httpError m =>
        (⟨.error (.upstreamUnavailable ("Cloudinary HTTP error: " ++ m)), 1,
            true, 1, 0⟩,
          cb'.report_failure now)

/-- `EmbeddingService.embed_texts`: an empty input list returns `[]`
without calling the Gateway; otherwise the call goes through
`ollama_embeddings` and the number of HTTP attempts comes from its trace.
The second component counts HTTP attempts issued upstream. -/
def embed_texts (cfg : GatewayConfig) (cb : CircuitBreaker) (now : ℚ)
    (url : String) (texts : List String) (outcomes : Nat → AttemptOutcome) :
    Except GError (List (List Int)) × Nat :=
  if texts = [] then
    (.ok [], 0)
  else
    let (res, tr) := ollama_embeddings cfg cb now url texts outcomes
    (res, tr.attempts)

/-! ## Circuit breaker lemmas -/

theorem report_failure_fail_threshold (cb : CircuitBreaker) (t : ℚ) :
    (cb.report_failure t).fail_threshold = cb.fail_threshold := by
  simp only [CircuitBreaker.report_failure]
  split <;> rfl

theorem report_failure_cooldown (cb : CircuitBreaker) (t : ℚ) :
    (cb.report_failure t).cooldown_seconds = cb.cooldown_seconds := by
  simp only [CircuitBreaker.report_failure]
  split <;> rfl

theorem report_failure_fail_count (cb : CircuitBreaker) (t : ℚ) :
    (cb.report_failure t).fail_count = cb.fail_count + 1 := by
  simp only [CircuitBreaker.report_failure]
  split <;> rfl

theorem report_failure_open_until_of_tripped (cb : CircuitBreaker) (t : ℚ)
    (h : cb.fail_threshold ≤ cb.fail_count + 1) :
    (cb.report_failure t).open_until = t + cb.cooldown_seconds := by
  simp only [CircuitBreaker.report_failure]
  rw [if_pos h]

theorem reportFailures_fail_count (ts : List ℚ) :
    ∀ cb : CircuitBreaker,
      (reportFailures cb ts).fail_count = cb.fail_count + ts.length := by
  induction ts with
  | nil => intro cb; simp [reportFailures]
  | cons t ts ih =>
    intro cb
    show (reportFailures (cb.report_failure t) ts).fail_count = _
    rw [ih, report_failure_fail_count]
    simp only [List.length_cons]
    omega

theorem reportFailures_fail_threshold (ts : List ℚ) :
    ∀ cb : CircuitBreaker,
      (reportFailures cb ts).fail_threshold = cb.fail_threshold := by
  induction ts with
  | nil => intro cb; rfl
  | cons t ts ih =>
    intro cb
    show (reportFailures (cb.report_failure t) ts).fail_threshold = _
    rw [ih, report_failure_fail_threshold]

theorem reportFailures_cooldown (ts : List ℚ) :
    ∀ cb : CircuitBreaker,
      (reportFailures cb ts).cooldown_seconds = cb.cooldown_seconds := by
  induction ts with
  | nil => intro cb; rfl
  | cons t ts ih =>
    intro cb
    show (reportFailures (cb.report_failure t) ts).cooldown_seconds = _
    rw [ih, report_failure_cooldown]

/-- After `ts ++ [tN]` consecutive failures whose total takes the counter
to (at least) the threshold, the breaker is open until `tN + cooldown`. -/
theorem reportFailures_concat_open_until (cb : CircuitBreaker) (ts : List ℚ)
    (tN : ℚ) (h : cb.fail_threshold ≤ cb.fail_count + ts.length + 1) :
    (reportFailures cb (ts ++ [tN])).open_until =
      tN + cb.cooldown_seconds := by
  have hsplit : reportFailures cb (ts ++ [tN]) =
      (reportFailures cb ts).report_failure tN := by
    simp [reportFailures, List.foldl_append]
  rw [hsplit, ← reportFailures_cooldown ts cb]
  apply report_failure_open_until_of_tripped
  rw [reportFailures_fail_threshold, reportFailures_fail_count]
  omega

/-! ## Executor lemmas -/

/-- The attempt outcome is a response whose status is transient and not
the expected one. -/
def isTransientOutcome (expected : Nat) : AttemptOutcome → Prop
  | .resp r => r.status ≠ expected ∧ r.status ∈ transientStatuses
  | .readTimeout => False
  | .httpError _ => False

/-- The attempt outcome is a network-level exception (`ReadTimeout` or
another `HTTPError`). -/
def isExceptionOutcome : AttemptOutcome → Prop
  | .resp _ => False
  | .readTimeout => True
  | .httpError _ => True

/-- A run whose every attempt yields a transient non-expected status:
no breaker report of any kind is made, all `rem` attempts are issued,
one backoff sleep follows every attempt (including the last), and the
run ends in an `UpstreamUnavailable` error. -/
theorem loopAttempts_transient_spec (expected : Nat) (b : ℚ) (url : String)
    (outcomes : Nat → AttemptOutcome)
    (h : ∀ j, isTransientOutcome expected (outcomes j)) :
    ∀ rem i le, (le = none ∨ ∃ m, le = some (GError.upstreamUnavailable m)) →
      (loopAttempts expected b url outcomes i rem le).failureReports = 0 ∧
      (loopAttempts expected b url outcomes i rem le).successReports = 0 ∧
      (loopAttempts expected b url outcomes i rem le).attempts = rem ∧
      (loopAttempts expected b url outcomes i rem le).sleeps =
        (List.range rem).map (fun k => b * ((i + k + 1 : Nat) : ℚ)) ∧
      ∃ m, (loopAttempts expected b url outcomes i rem le).result =
        .error (GError.upstreamUnavailable m) := by
  intro rem
  induction rem with
  | zero =>
    intro i le hle
    refine ⟨rfl, rfl, rfl, rfl, ?_⟩
    rcases hle with rfl | ⟨m, rfl⟩
    · exact ⟨"Failed to call " ++ url, rfl⟩
    · exact ⟨m, rfl⟩
  | succ rem ih =>
    intro i le _
    have htr := h i
    cases ho : outcomes i with
    | readTimeout => rw [ho] at htr; exact absurd htr (by simp [isTransientOutcome])
    | httpError m => rw [ho] at htr; exact absurd htr (by simp [isTransientOutcome])
    | resp r =>
      rw [ho] at htr
      obtain ⟨hne, hmem⟩ := htr
      have hrest := ih (i + 1)
        (some (.upstreamUnavailable
          ("Upstream " ++ url ++ " returned " ++ toString r.status)))
        (Or.inr ⟨_, rfl⟩)
      obtain ⟨hf, hs, ha, hsl, hm, hres⟩ := hrest
      simp only [loopAttempts, ho, if_neg hne, if_pos hmem]
      refine ⟨hf, hs, by rw [ha], ?_, ⟨hm, hres⟩⟩
      rw [hsl, List.range_succ_eq_map, List.map_cons, List.map_map]
      congr 1
      · norm_num
      · apply List.map_congr_left
        intro k _
        simp only [Function.comp]
        congr 1
        push_cast
        ring

/-- A run whose every attempt raises a network-level exception reports a
breaker failure on every attempt. -/
theorem loopAttempts_exception_reports (expected : Nat) (b : ℚ) (url : String)
    (outcomes : Nat → AttemptOutcome)
    (h : ∀ j, isExceptionOutcome (outcomes j)) :
    ∀ rem i le,
      (loopAttempts expected b url outcomes i rem le).failureReports = rem := by
  intro rem
  induction rem with
  | zero => intro i le; rfl
  | succ rem ih =>
    intro i le
    have htr := h i
    cases ho : outcomes i with
    | resp r => rw [ho] at htr; exact absurd htr (by simp [isExceptionOutcome])
    | readTimeout =>
      simp only [loopAttempts, ho]
      rw [ih]
    | httpError m =>
      simp only [loopAttempts, ho]
      rw [ih]

/-- When the breaker is closed (`open_until = 0`) and time is
non-negative, `allow` passes without touching state and the executor
enters its attempt loop. -/
theorem requestWithRetry_closed (cfg : GatewayConfig) (cb : CircuitBreaker)
    (now : ℚ) (url : String) (expected : Nat)
    (outcomes : Nat → AttemptOutcome) (hnow : 0 ≤ now)
    (hcb : cb.open_until = 0) :
    requestWithRetry cfg cb now url expected outcomes =
      (loopAttempts expected cfg.retry_backoff_seconds url outcomes 0
        (cfg.retries + 1) none, cb) := by
  have hallow : CircuitBreaker.allow cb now = (none, cb) := by
    unfold CircuitBreaker.allow
    rw [if_neg (by rw [hcb]; exact not_lt.mpr hnow)]
    rw [if_neg (by rw [hcb]; simp)]
  unfold requestWithRetry
  rw [hallow]

/-- Python slicing `s[:n]` yields at most `n` characters. -/
theorem pyTake_length_le (s : String) (n : Nat) : (pyTake s n).length ≤ n := by
  show (s.data.take n).length ≤ n
  rw [List.length_take]
  omega

/-! ## Claims -/

/-- Claim C9: once the breaker's failure counter has reached the
threshold, every further `report_failure` at instant `t` sets
`open_until` to `t + cooldown`, and a later further failure never
shortens the open window. -/
theorem claim_C9_confirmed (cb : CircuitBreaker) (t t₁ t₂ : ℚ)
    (h : cb.fail_threshold ≤ cb.fail_count) (hle : t₁ ≤ t₂) :
    (cb.report_failure t).open_until = t + cb.cooldown_seconds ∧
    (cb.report_failure t₁).open_until ≤
      ((cb.report_failure t₁).report_failure t₂).open_until := by
  constructor
  · exact report_failure_open_until_of_tripped cb t (by omega)
  · rw [report_failure_open_until_of_tripped cb t₁ (by omega),
      report_failure_open_until_of_tripped (cb.report_failure t₁) t₂
        (by rw [report_failure_fail_threshold, report_failure_fail_count]; omega),
      report_failure_cooldown]
    exact add_le_add_right hle _

/-- Witness for C9 at a breaker already at its threshold. -/
theorem claim_C9_witness :
    ((CircuitBreaker.mk 2 10 2 5).report_failure 3).open_until =
      3 + (CircuitBreaker.mk 2 10 2 5).cooldown_seconds ∧
    ((CircuitBreaker.mk 2 10 2 5).report_failure 3).open_until ≤
      (((CircuitBreaker.mk 2 10 2 5).report_failure 3).report_failure
        4).open_until :=
  claim_C9_confirmed (CircuitBreaker.mk 2 10 2 5) 3 3 4 (by decide)
    (by norm_num)

/-- Claim C10: whenever `allow` rejects (raises, i.e. returns `some`
error), the breaker state after the call is exactly the state before —
the rejection path performs no mutation. -/
theorem claim_C10_confirmed (cb : CircuitBreaker) (now : ℚ) (e : GError)
    (h : (CircuitBreaker.allow cb now).1 = some e) :
    (CircuitBreaker.allow cb now).2 = cb := by
  by_cases h1 : now < cb.open_until
  · simp [CircuitBreaker.allow, h1]
  · exfalso
    unfold CircuitBreaker.allow at h
    rw [if_neg h1] at h
    split at h <;> simp at h

/-- Witness for C10 on an open breaker rejecting at `now = 1`. -/
theorem claim_C10_witness :
    (CircuitBreaker.allow (CircuitBreaker.mk 2 10 2 5) 1).2 =
      CircuitBreaker.mk 2 10 2 5 :=
  claim_C10_confirmed (CircuitBreaker.mk 2 10 2 5) 1
    (GError.circuitOpen (5 - 1)) (by
      unfold CircuitBreaker.allow
      rw [if_pos
        (show (1 : ℚ) < (CircuitBreaker.mk 2 10 2 5).open_until by norm_num)])

/-- Claim C1: starting from a fresh breaker, after `ts ++ [tN]`
(that is, `N = ts.length + 1 ≥ threshold`) consecutive `report_failure`
calls, `allow` before `tN + cooldown` raises Upstream Unavailable (the
circuit-open rejection) and the executor then issues zero HTTP attempts;
the first `allow` at or after `tN + cooldown` returns successfully with
the counter reset to 0 and `open_until` cleared. -/
theorem claim_C1_confirmed (T : Nat) (c : ℚ) (ts : List ℚ) (tN now now' : ℚ)
    (cfg : GatewayConfig) (url : String) (expected : Nat)
    (outcomes : Nat → AttemptOutcome)
    (hc : 0 < c) (htN : 0 ≤ tN) (hN : T ≤ ts.length + 1)
    (hbefore : now < tN + c) (hafter : tN + c ≤ now') :
    ((CircuitBreaker.allow
        (reportFailures (CircuitBreaker.init T c) (ts ++ [tN])) now).1 =
      some (GError.circuitOpen (tN + c - now)) ∧
    (requestWithRetry cfg
        (reportFailures (CircuitBreaker.init T c) (ts ++ [tN])) now url
        expected outcomes).1.attempts = 0 ∧
    (requestWithRetry cfg
        (reportFailures (CircuitBreaker.init T c) (ts ++ [tN])) now url
        expected outcomes).1.result =
      .error (GError.circuitOpen (tN + c - now))) ∧
    ((CircuitBreaker.allow
        (reportFailures (CircuitBreaker.init T c) (ts ++ [tN])) now').1 =
      none ∧
    (CircuitBreaker.allow
        (reportFailures (CircuitBreaker.init T c) (ts ++ [tN]))
        now').2.fail_count = 0 ∧
    (CircuitBreaker.allow
        (reportFailures (CircuitBreaker.init T c) (ts ++ [tN]))
        now').2.open_until = 0) := by
  set cb := reportFailures (CircuitBreaker.init T c) (ts ++ [tN]) with hcbdef
  have hopen : cb.open_until = tN + c := by
    rw [hcbdef]
    have := reportFailures_concat_open_until (CircuitBreaker.init T c) ts tN
      (by simp [CircuitBreaker.init]; omega)
    simpa [CircuitBreaker.init] using this
  have hallow : CircuitBreaker.allow cb now =
      (some (GError.circuitOpen (tN + c - now)), cb) := by
    unfold CircuitBreaker.allow
    rw [hopen, if_pos hbefore]
  have hreq : requestWithRetry cfg cb now url expected outcomes =
      (⟨.error (GError.circuitOpen (tN + c - now)), 0, [], 0, 0⟩, cb) := by
    unfold requestWithRetry
    rw [hallow]
  have hpos : (0 : ℚ) < tN + c := by linarith
  have hallow' : CircuitBreaker.allow cb now' =
      (none, { cb with fail_count := 0, open_until := 0 }) := by
    unfold CircuitBreaker.allow
    rw [hopen, if_neg (not_lt.mpr hafter),
      if_pos ⟨ne_of_gt hpos, hafter⟩]
  refine ⟨⟨?_, ?_, ?_⟩, ?_, ?_, ?_⟩
  · rw [hallow]
  · rw [hreq]
  · rw [hreq]
  · rw [hallow']
  · rw [hallow']
  · rw [hallow']

/-- Witness for C1: threshold 2, cooldown 10, failures at instants 0 and
1, rejection at 5, reset at 11. -/
theorem claim_C1_witness :
    ((CircuitBreaker.allow
        (reportFailures (CircuitBreaker.init 2 10) ([0] ++ [1])) 5).1 =
      some (GError.circuitOpen (1 + 10 - 5)) ∧
    (requestWithRetry {}
        (reportFailures (CircuitBreaker.init 2 10) ([0] ++ [1])) 5 "u"
        200 (fun _ => .readTimeout)).1.attempts = 0 ∧
    (requestWithRetry {}
        (reportFailures (CircuitBreaker.init 2 10) ([0] ++ [1])) 5 "u"
        200 (fun _ => .readTimeout)).1.result =
      .error (GError.circuitOpen (1 + 10 - 5))) ∧
    ((CircuitBreaker.allow
        (reportFailures (CircuitBreaker.init 2 10) ([0] ++ [1])) 11).1 =
      none ∧
    (CircuitBreaker.allow
        (reportFailures (CircuitBreaker.init 2 10) ([0] ++ [1]))
        11).2.fail_count = 0 ∧
    (CircuitBreaker.allow
        (reportFailures (CircuitBreaker.init 2 10) ([0] ++ [1]))
        11).2.open_until = 0) :=
  claim_C1_confirmed 2 10 [0] 1 5 11 {} "u" 200 (fun _ => .readTimeout)
    (by norm_num) (by norm_num) (by simp) (by norm_num) (by norm_num)

/-- Claim C2, counterexample: with retries = 2 and a transient 503 on
every attempt, the run exhausts all 3 attempts and ends in Upstream
Unavailable, yet the breaker receives zero failure reports — breaker
failure accounting does NOT happen at the terminal outcome of a
transient-status run, contrary to the claim. -/
theorem claim_C2_counterexample :
    (requestWithRetry { retries := 2, retry_backoff_seconds := 1 }
        (CircuitBreaker.init 4 10) 0 "u" 200
        (fun _ => .resp ⟨503, "", none, []⟩)).1.failureReports = 0 ∧
    (requestWithRetry { retries := 2, retry_backoff_seconds := 1 }
        (CircuitBreaker.init 4 10) 0 "u" 200
        (fun _ => .resp ⟨503, "", none, []⟩)).1.attempts = 3 ∧
    (requestWithRetry { retries := 2, retry_backoff_seconds := 1 }
        (CircuitBreaker.init 4 10) 0 "u" 200
        (fun _ => .resp ⟨503, "", none, []⟩)).1.result =
      .error (GError.upstreamUnavailable "Upstream u returned 503") := by
  rw [requestWithRetry_closed _ _ _ _ _ _ le_rfl rfl]
  have h := loopAttempts_transient_spec 200 1 "u"
    (fun _ => .resp ⟨503, "", none, []⟩)
    (fun _ => ⟨by decide, by decide⟩) 3 0 none (Or.inl rfl)
  exact ⟨h.1, h.2.2.1, by rfl⟩

/-- Claim C2, amended: a transient-status attempt is never reported to
the breaker as a failure — neither per attempt nor at the terminal
outcome: a run whose every attempt yields a transient status (one of
408, 429, 500, 502, 503, 504) makes zero failure reports and ends in
Upstream Unavailable, whereas a run whose every attempt raises a
timeout or other network exception reports a failure on every one of its
`retries + 1` attempts. -/
theorem claim_C2_amended (cfg : GatewayConfig) (T : Nat) (c now : ℚ)
    (url : String) (expected : Nat) (o₁ o₂ : Nat → AttemptOutcome)
    (hnow : 0 ≤ now)
    (h₁ : ∀ j, isTransientOutcome expected (o₁ j))
    (h₂ : ∀ j, isExceptionOutcome (o₂ j)) :
    ((requestWithRetry cfg (CircuitBreaker.init T c) now url expected
        o₁).1.failureReports = 0 ∧
      ∃ m, (requestWithRetry cfg (CircuitBreaker.init T c) now url expected
        o₁).1.result = .error (GError.upstreamUnavailable m)) ∧
    (requestWithRetry cfg (CircuitBreaker.init T c) now url expected
        o₂).1.failureReports = cfg.retries + 1 := by
  rw [requestWithRetry_closed _ _ _ _ _ _ hnow rfl,
    requestWithRetry_closed _ _ _ _ _ _ hnow rfl]
  have h := loopAttempts_transient_spec expected cfg.retry_backoff_seconds url
    o₁ h₁ (cfg.retries + 1) 0 none (Or.inl rfl)
  exact ⟨⟨h.1, h.2.2.2.2⟩,
    loopAttempts_exception_reports expected cfg.retry_backoff_seconds url o₂
      h₂ (cfg.retries + 1) 0 none⟩

/-- Witness for the amended C2: all-503 run reports nothing; all-timeout
run with retries = 2 reports 3 failures. -/
theorem claim_C2_witness :
    (((requestWithRetry {} (CircuitBreaker.init 4 10) 0 "u" 200
        (fun _ => .resp ⟨503, "", none, []⟩)).1.failureReports = 0 ∧
      ∃ m, (requestWithRetry {} (CircuitBreaker.init 4 10) 0 "u" 200
        (fun _ => .resp ⟨503, "", none, []⟩)).1.result =
          .error (GError.upstreamUnavailable m)) ∧
    (requestWithRetry {} (CircuitBreaker.init 4 10) 0 "u" 200
        (fun _ => .readTimeout)).1.failureReports =
      GatewayConfig.retries {} + 1) :=
  claim_C2_amended {} 4 10 0 "u" 200 (fun _ => .resp ⟨503, "", none, []⟩)
    (fun _ => .readTimeout) le_rfl (fun _ => ⟨by decide, by decide⟩)
    (fun _ => trivial)

/-- Claim C3, counterexample: with retries = 2, backoff unit 1 and a
transient 503 on every attempt, the executor sleeps three times —
1, 2 and then 3 after the final attempt — not the two sleeps the claim
states. -/
theorem claim_C3_counterexample :
    (requestWithRetry { retries := 2, retry_backoff_seconds := 1 }
        (CircuitBreaker.init 4 10) 0 "u" 200
        (fun _ => .resp ⟨503, "", none, []⟩)).1.sleeps = [1, 2, 3] ∧
    (requestWithRetry { retries := 2, retry_backoff_seconds := 1 }
        (CircuitBreaker.init 4 10) 0 "u" 200
        (fun _ => .resp ⟨503, "", none, []⟩)).1.sleeps.length ≠ 2 := by
  rw [requestWithRetry_closed _ _ _ _ _ _ le_rfl rfl]
  have h := loopAttempts_transient_spec 200 1 "u"
    (fun _ => .resp ⟨503, "", none, []⟩)
    (fun _ => ⟨by decide, by decide⟩) 3 0 none (Or.inl rfl)
  have hs : (loopAttempts 200 1 "u" (fun _ => .resp ⟨503, "", none, []⟩) 0 3
      none).sleeps = [1, 2, 3] := by
    rw [h.2.2.2.1]
    norm_num [List.range_succ]
  exact ⟨hs, by rw [hs]; simp⟩

/-- Claim C3, amended: with retries = 2 and a transient status on every
attempt, the executor performs exactly 3 HTTP attempts and sleeps
backoff×1, backoff×2 and backoff×3 — one sleep after every transient
attempt, including after the final one — then fails with Upstream
Unavailable. -/
theorem claim_C3_amended (b : ℚ) (T : Nat) (c now : ℚ) (url : String)
    (outcomes : Nat → AttemptOutcome) (hnow : 0 ≤ now)
    (h : ∀ j, isTransientOutcome 200 (outcomes j)) :
    (requestWithRetry { retries := 2, retry_backoff_seconds := b }
        (CircuitBreaker.init T c) now url 200 outcomes).1.attempts = 3 ∧
    (requestWithRetry { retries := 2, retry_backoff_seconds := b }
        (CircuitBreaker.init T c) now url 200 outcomes).1.sleeps =
      [b * 1, b * 2, b * 3] ∧
    ∃ m, (requestWithRetry { retries := 2, retry_backoff_seconds := b }
        (CircuitBreaker.init T c) now url 200 outcomes).1.result =
      .error (GError.upstreamUnavailable m) := by
  rw [requestWithRetry_closed _ _ _ _ _ _ hnow rfl]
  have h3 := loopAttempts_transient_spec 200 b url outcomes h 3 0 none
    (Or.inl rfl)
  refine ⟨h3.2.2.1, ?_, h3.2.2.2.2⟩
  rw [h3.2.2.2.1]
  norm_num [List.range_succ]

/-- Witness for the amended C3 at backoff unit 1 and constant 503s. -/
theorem claim_C3_witness :
    ((requestWithRetry { retries := 2, retry_backoff_seconds := 1 }
        (CircuitBreaker.init 4 10) 0 "u" 200
        (fun _ => .resp ⟨503, "", none, []⟩)).1.attempts = 3 ∧
    (requestWithRetry { retries := 2, retry_backoff_seconds := 1 }
        (CircuitBreaker.init 4 10) 0 "u" 200
        (fun _ => .resp ⟨503, "", none, []⟩)).1.sleeps =
      [1 * 1, 1 * 2, 1 * 3] ∧
    ∃ m, (requestWithRetry { retries := 2, retry_backoff_seconds := 1 }
        (CircuitBreaker.init 4 10) 0 "u" 200
        (fun _ => .resp ⟨503, "", none, []⟩)).1.result =
      .error (GError.upstreamUnavailable m)) :=
  claim_C3_amended 1 4 10 0 "u" (fun _ => .resp ⟨503, "", none, []⟩)
    le_rfl (fun _ => ⟨by decide, by decide⟩)

/-- Claim C5: a first-attempt response with a non-transient non-expected
status makes exactly 1 attempt, one breaker failure report, no sleep, and
raises Bad Upstream Response carrying the body truncated to at most 512
characters. -/
theorem claim_C5_confirmed (cfg : GatewayConfig) (T : Nat) (c now : ℚ)
    (url : String) (expected : Nat) (r : HttpResponse)
    (outcomes : Nat → AttemptOutcome)
    (hnow : 0 ≤ now) (h0 : outcomes 0 = .resp r)
    (hne : r.status ≠ expected) (hnt : r.status ∉ transientStatuses) :
    (requestWithRetry cfg (CircuitBreaker.init T c) now url expected
        outcomes).1.attempts = 1 ∧
    (requestWithRetry cfg (CircuitBreaker.init T c) now url expected
        outcomes).1.failureReports = 1 ∧
    (requestWithRetry cfg (CircuitBreaker.init T c) now url expected
        outcomes).1.sleeps = [] ∧
    (requestWithRetry cfg (CircuitBreaker.init T c) now url expected
        outcomes).1.result =
      .error (GError.badUpstreamResponse (pyTake r.text 512)) ∧
    (pyTake r.text 512).length ≤ 512 := by
  rw [requestWithRetry_closed _ _ _ _ _ _ hnow rfl]
  have hloop : loopAttempts expected cfg.retry_backoff_seconds url outcomes 0
      (cfg.retries + 1) none =
      ⟨.error (GError.badUpstreamResponse (pyTake r.text 512)),
        1, [], 1, 0⟩ := by
    simp only [loopAttempts, h0, if_neg hne, if_neg hnt]
  rw [hloop]
  exact ⟨rfl, rfl, rfl, rfl, pyTake_length_le _ _⟩

/-- Witness for C5: a 400 response with body "oops" on the first
attempt. -/
theorem claim_C5_witness :
    ((requestWithRetry {} (CircuitBreaker.init 4 10) 0 "u" 200
        (fun _ => .resp ⟨400, "oops", none, []⟩)).1.attempts = 1 ∧
    (requestWithRetry {} (CircuitBreaker.init 4 10) 0 "u" 200
        (fun _ => .resp ⟨400, "oops", none, []⟩)).1.failureReports = 1 ∧
    (requestWithRetry {} (CircuitBreaker.init 4 10) 0 "u" 200
        (fun _ => .resp ⟨400, "oops", none, []⟩)).1.sleeps = [] ∧
    (requestWithRetry {} (CircuitBreaker.init 4 10) 0 "u" 200
        (fun _ => .resp ⟨400, "oops", none, []⟩)).1.result =
      .error (GError.badUpstreamResponse (pyTake "oops" 512)) ∧
    (pyTake "oops" 512).length ≤ 512) :=
  claim_C5_confirmed {} 4 10 0 "u" 200 ⟨400, "oops", none, []⟩
    (fun _ => .resp ⟨400, "oops", none, []⟩) le_rfl rfl (by decide)
    (by decide)

/-- Claim C4, counterexample: a 200 response whose body is the valid
JSON object `\x7b\x7d` (no `response` field) makes the non-streaming
generate operation return the empty string successfully — a silent
default, not a Bad Upstream Response error. -/
theorem claim_C4_counterexample :
    (ollama_generate {} (CircuitBreaker.init 4 10) 0 "u" false
      (fun _ => .resp ⟨200, "", some (.obj []), []⟩)).1 = .ok "" := by
  rfl

/-- Claim C4, amended: on an expected-status response, a body that is
not decodable JSON surfaces as Bad Upstream Response for the generate
and embeddings operations; but a decoded generate body missing its
`response` field yields a silent empty-string result, and for the upload
operation parse failures (undecodable body, missing `public_id`) escape
as uncaught raw exceptions rather than a Bad Upstream Response. -/
theorem claim_C4_amended (t t' : String) (ls : List (Option Json))
    (fields efields pfields : List (String × Json))
    (hmiss : lookupField "response" fields = none)
    (hemb1 : lookupField "embeddings" efields = none)
    (hemb2 : lookupField "embedding" efields = none)
    (hpid : lookupField "public_id" pfields = none) :
    parseGenerateResponse false ⟨200, t, none, ls⟩ =
      .error (.badUpstreamResponse "Failed parsing Ollama response") ∧
    parseGenerateResponse false ⟨200, t, some (.obj fields), ls⟩ = .ok "" ∧
    parseEmbeddingsResponse ⟨200, t, none, ls⟩ =
      .error (.badUpstreamResponse "Failed parsing Ollama embeddings") ∧
    parseEmbeddingsResponse ⟨200, t, some (.obj efields), ls⟩ =
      .error (.badUpstreamResponse "Empty embeddings in response") ∧
    parseCloudinaryResponse ⟨200, t', none, ls⟩ =
      .error (.uncaught "json.JSONDecodeError") ∧
    parseCloudinaryResponse ⟨200, t', some (.obj pfields), ls⟩ =
      .error (.uncaught "KeyError") := by
  refine ⟨rfl, ?_, rfl, ?_, rfl, ?_⟩
  · simp [parseGenerateResponse, responseTextField, hmiss]
  · simp [parseEmbeddingsResponse, hemb1, hemb2]
  · simp [parseCloudinaryResponse, hpid]

/-- Witness for the amended C4 on empty field lists. -/
theorem claim_C4_witness :
    parseGenerateResponse false ⟨200, "x", none, []⟩ =
      .error (.badUpstreamResponse "Failed parsing Ollama response") ∧
    parseGenerateResponse false ⟨200, "x", some (.obj []), []⟩ = .ok "" ∧
    parseEmbeddingsResponse ⟨200, "x", none, []⟩ =
      .error (.badUpstreamResponse "Failed parsing Ollama embeddings") ∧
    parseEmbeddingsResponse ⟨200, "x", some (.obj []), []⟩ =
      .error (.badUpstreamResponse "Empty embeddings in response") ∧
    parseCloudinaryResponse ⟨200, "y", none, []⟩ =
      .error (.uncaught "json.JSONDecodeError") ∧
    parseCloudinaryResponse ⟨200, "y", some (.obj []), []⟩ =
      .error (.uncaught "KeyError") :=
  claim_C4_amended "x" "y" [] [] [] [] rfl rfl rfl rfl

/-- Claim C6: the embeddings payload carries a single input string in
both the `input` and `prompt` fields, and for two or more inputs carries
the list in `input` and the `" \n"`-joined inputs in `prompt`. -/
theorem claim_C6_confirmed (m s : String) (xs : List String)
    (h : 2 ≤ xs.length) :
    buildEmbeddingsPayload m [s] = ⟨m, .str s, s⟩ ∧
    buildEmbeddingsPayload m xs =
      ⟨m, .arr (xs.map .str), String.intercalate " \n" xs⟩ := by
  refine ⟨rfl, ?_⟩
  match xs, h with
  | a :: b :: rest, _ => rfl

/-- Witness for C6: input `["tahini"]` fills both fields with "tahini";
input `["a", "b"]` yields the list and the joined string "a \nb". -/
theorem claim_C6_witness :
    buildEmbeddingsPayload "m" ["tahini"] = ⟨"m", .str "tahini", "tahini"⟩ ∧
    buildEmbeddingsPayload "m" ["a", "b"] =
      ⟨"m", .arr [.str "a", .str "b"], "a \nb"⟩ :=
  claim_C6_confirmed "m" "tahini" ["a", "b"] (by decide)

/-- Claim C7: with any of the three Cloudinary credential fields empty,
the upload operation fails with the configuration error before the
breaker is consulted and with zero HTTP calls, leaving the breaker
untouched. -/
theorem claim_C7_confirmed (cfg : GatewayConfig) (cb : CircuitBreaker)
    (now : ℚ) (outcome : AttemptOutcome)
    (h : cfg.cloudinary_cloud_name = "" ∨ cfg.cloudinary_api_key = "" ∨
      cfg.cloudinary_api_secret = "") :
    cloudinary_upload_image cfg cb now outcome =
      (⟨.error (.gatewayError "Cloudinary credentials missing"),
        0, false, 0, 0⟩, cb) := by
  unfold cloudinary_upload_image
  rw [if_pos h]

/-- Witness for C7: cloud name set but API key empty. -/
theorem claim_C7_witness :
    cloudinary_upload_image
        { cloudinary_cloud_name := "demo", cloudinary_api_secret := "s" }
        (CircuitBreaker.init 4 10) 0 (.resp ⟨200, "", none, []⟩) =
      (⟨.error (.gatewayError "Cloudinary credentials missing"),
        0, false, 0, 0⟩, CircuitBreaker.init 4 10) :=
  claim_C7_confirmed
    { cloudinary_cloud_name := "demo", cloudinary_api_secret := "s" }
    (CircuitBreaker.init 4 10) 0 (.resp ⟨200, "", none, []⟩)
    (Or.inr (Or.inl rfl))

/-- Claim C8: an empty input list to the embedding operation returns the
empty result with zero HTTP attempts, for every configuration, breaker
state and upstream behaviour. -/
theorem claim_C8_confirmed (cfg : GatewayConfig) (cb : CircuitBreaker)
    (now : ℚ) (url : String) (outcomes : Nat → AttemptOutcome) :
    embed_texts cfg cb now url [] outcomes = (.ok [], 0) := rfl
